import Mathlib

/-!
Verification of the reconciliation and reporting pipeline of the
DataAnalysisPython repository.

The embedding follows the source scripts:
* `src/Others/POSComparisionReport.py` — filter, group, reconcile
  (functions `prepare_transaction_data`, `group_transaction_data`,
  `find_missing_records`, `find_amount_mismatches`);
* `src/Archive/membership.py` — the August-2025 membership filter with the
  `purchasedon` fallback and `effective_tax_rate`;
* `src/FinalScript/new_membership_pdf.py` — `Tax_Percentage` / `Final_Tax`;
* `src/PDF_Report_Generator.py` — the 30-rows-per-page pagination loops.

Monetary amounts are embedded as rationals (the scripts treat them as exact
decimals), timestamps as integers (only their relative order matters), and a
raw date cell as an `Option` value: `some d` is a parseable cell whose parsed
value is `d`, `none` is an unparseable cell.  `pd.to_datetime` with the
default error mode fails on an unparseable cell (embedded as `Except`), while
`errors = coerce` turns it into the null marker `NaT` (embedded as `none`).
-/

namespace DataAnalysis

/-- A pre-aggregation transaction row after filtering
(`Order ID`, `Amount`, `Transaction Date`, `Location`, `Payment Type`,
`Payment Gateway` columns of the transaction report). -/
structure TransRecord where
  orderId : String
  amount : ℚ
  date : Int
  location : String
  paymentType : String
  paymentGateway : String
deriving DecidableEq, Repr

/-- One row per order after `group_transaction_data`
(`src/Others/POSComparisionReport.py`, lines 85-100). -/
structure GroupedOrder where
  orderId : String
  amount : ℚ
  date : Int
  location : String
  paymentType : String
  paymentGateway : String
deriving DecidableEq, Repr

/-- A tax-report row (`Order ID`, `Date`, `Total Sum`, `Tip`, `Tax`). -/
structure TaxRecord where
  orderId : String
  date : Int
  totalSum : ℚ
  tip : ℚ
  tax : ℚ
deriving DecidableEq, Repr

/-! ## Reconciler (`src/Others/POSComparisionReport.py`, lines 102-162) -/

/-- Embedding of
`missing_in_tax = trans_aug_grouped[~trans_aug_grouped[OrderID].isin(tax_aug[OrderID])]`
(line 106). -/
def find_missing_records (G : List GroupedOrder) (T : List TaxRecord) :
    List GroupedOrder :=
  G.filter (fun g => !(T.any (fun t => t.orderId == g.orderId)))

/-- Embedding of `common_orders = trans_aug_grouped[trans_aug_grouped[OrderID].isin(tax_aug[OrderID])]`
(line 129). -/
def common_orders (G : List GroupedOrder) (T : List TaxRecord) :
    List GroupedOrder :=
  G.filter (fun g => T.any (fun t => t.orderId == g.orderId))

/-- Embedding of `common_tax_orders = tax_aug[tax_aug[OrderID].isin(trans_aug_grouped[OrderID])]`
(line 130). -/
def common_tax_orders (G : List GroupedOrder) (T : List TaxRecord) :
    List TaxRecord :=
  T.filter (fun t => G.any (fun g => g.orderId == t.orderId))

/-- Embedding of `merged_comparison = pd.merge(common_orders, common_tax_orders, on=OrderID, how=inner)`
(lines 133-138).  A pandas inner merge pairs every left row with every
matching right row, left-row major, right rows in their frame order. -/
def merged_comparison (G : List GroupedOrder) (T : List TaxRecord) :
    List (GroupedOrder × TaxRecord) :=
  (common_orders G T).flatMap (fun g =>
    ((common_tax_orders G T).filter (fun t => t.orderId == g.orderId)).map
      (fun t => (g, t)))

/-- Embedding of `Amount_Diff = Amount - Total Sum` (line 141). -/
def amount_diff (p : GroupedOrder × TaxRecord) : ℚ :=
  p.1.amount - p.2.totalSum

/-- Embedding of `Abs_Diff = abs(Amount_Diff)` (line 142). -/
def abs_diff (p : GroupedOrder × TaxRecord) : ℚ :=
  |amount_diff p|

/-- Embedding of `significant_mismatches = merged_comparison[merged_comparison[AbsDiff] > 0.01]`
(line 145). -/
def significant_mismatches (G : List GroupedOrder) (T : List TaxRecord) :
    List (GroupedOrder × TaxRecord) :=
  (merged_comparison G T).filter (fun p => decide ((1 : ℚ)/100 < abs_diff p))

/-- Return value of `find_amount_mismatches` (line 162). -/
def find_amount_mismatches (G : List GroupedOrder) (T : List TaxRecord) :
    List (GroupedOrder × TaxRecord) × List (GroupedOrder × TaxRecord) :=
  (merged_comparison G T, significant_mismatches G T)

/-- Inner join of the full `G` and `T` on the order id, written directly from
the words of the specification (section 4.4): `matched = set of pairs (g, t)
with g.order_id == t.order_id`.  Used to compare `merged_comparison` against
the specification in the refinement claim. -/
def spec_inner_join (G : List GroupedOrder) (T : List TaxRecord) :
    List (GroupedOrder × TaxRecord) :=
  G.flatMap (fun g =>
    (T.filter (fun t => t.orderId == g.orderId)).map (fun t => (g, t)))

/-! ## Grouper (`src/Others/POSComparisionReport.py`, lines 85-100) -/

/-- One output row of the pandas groupby-aggregate for key `k`: `Amount` is
summed, the other tracked columns are taken from the first input row with
that key in the original row order (the `agg` policy of lines 89-95).
Returns `none` when no row has key `k`. -/
def groupFor (rows : List TransRecord) (k : String) : Option GroupedOrder :=
  match rows.filter (fun r => r.orderId == k) with
  | [] => none
  | r :: rs =>
    some { orderId := k
           amount := ((r :: rs).map (·.amount)).sum
           date := r.date
           location := r.location
           paymentType := r.paymentType
           paymentGateway := r.paymentGateway }

/-- Embedding of
`trans_aug_grouped = trans_aug.groupby(OrderID).agg(...).reset_index()`
(lines 89-95): one `GroupedOrder` per distinct order id occurring in the
input.  Pandas emits the groups in sorted key order; the order of the keys is
immaterial to every property proved below, so the distinct keys are
enumerated by `dedup` here. -/
def group_transaction_data (rows : List TransRecord) : List GroupedOrder :=
  ((rows.map (·.orderId)).dedup).filterMap (groupFor rows)

/-! ## Filter/Normalize of the POS script
(`src/Others/POSComparisionReport.py`, lines 32-56) -/

/-- A raw transaction-report row before date parsing: `transactionDate` is
`some d` when the `Transaction Date` cell parses to the timestamp `d`, and
`none` when the cell is unparseable. -/
structure RawTransRow where
  orderId : String
  source : String
  transactionDate : Option Int
  amount : ℚ
  location : String
  paymentType : String
  paymentGateway : String
deriving DecidableEq, Repr

/-- Embedding of the `Module` column (lines 41-45): `memberships` when the
order id starts with `MEM`, otherwise the `Source` value. -/
def module_of (r : RawTransRow) : String :=
  if r.orderId.startsWith "MEM" then "memberships" else r.source

/-- Embedding of `prepare_transaction_data` (lines 32-56): filter
`Source == pos`, filter `Module == pos`, then run `pd.to_datetime` on the
`Transaction Date` column with the DEFAULT error mode, which raises on the
first unparseable cell (embedded as `Except.error`). -/
def prepare_transaction_data (woodTrans : List RawTransRow) :
    Except Unit (List TransRecord) :=
  let trans_pos_df := woodTrans.filter (fun r => r.source == "pos")
  let trans_pos_module_df := trans_pos_df.filter (fun r => module_of r == "pos")
  if trans_pos_module_df.all (fun r => r.transactionDate.isSome) then
    Except.ok (trans_pos_module_df.filterMap (fun r =>
      r.transactionDate.map (fun d =>
        ⟨r.orderId, r.amount, d, r.location, r.paymentType, r.paymentGateway⟩)))
  else Except.error ()

/-! ## Membership filter with fallback (`src/Archive/membership.py`) -/

/-- A parsed calendar date, reduced to the components the scripts compare
(`dt.year` and `dt.month`). -/
structure SimpleDate where
  year : Int
  month : Nat
deriving DecidableEq, Repr

/-- A membership spreadsheet row.  Each date column is `some d` when the cell
parses to `d` under `errors=coerce`, and `none` when the cell is coerced to
the null marker `NaT`. -/
structure MemRow where
  updatedat : Option SimpleDate
  purchasedon : Option SimpleDate
  membershiptypename : String
  total : ℚ
  tax : ℚ
deriving DecidableEq, Repr

/-- Embedding of `(col.dt.year == 2025) & (col.dt.month == 8)`: the null
marker `NaT` compares false on both components. -/
def isAugust2025 : Option SimpleDate → Bool
  | some d => d.year == 2025 && d.month == 8
  | none => false

/-- Embedding of the primary filter of `membership.py` (lines 26-29):
rows whose coerced `updatedat` falls in August 2025. -/
def august_2025_by_updatedat (data : List MemRow) : List MemRow :=
  data.filter (fun r => isAugust2025 r.updatedat)

/-- Embedding of the fallback filter of `membership.py` (lines 37-40):
rows whose coerced `purchasedon` falls in August 2025. -/
def august_2025_by_purchasedon (data : List MemRow) : List MemRow :=
  data.filter (fun r => isAugust2025 r.purchasedon)

/-- Embedding of the `august_2025` dataset of `membership.py` (lines 26-41):
the primary `updatedat` filter, replaced by the `purchasedon` filter exactly
when the primary filter selects zero rows (`if len(august_2025) == 0`,
line 34). -/
def august_2025 (data : List MemRow) : List MemRow :=
  if (august_2025_by_updatedat data).length = 0 then
    august_2025_by_purchasedon data
  else
    august_2025_by_updatedat data

/-- Embedding of `effective_tax_rate` (membership.py line 66):
`(grand_tax / grand_total * 100) if grand_total > 0 else 0`. -/
def effective_tax_rate (grand_tax grand_total : ℚ) : ℚ :=
  if 0 < grand_total then grand_tax / grand_total * 100 else 0

/-! ## Pagination (`src/PDF_Report_Generator.py`, lines 547-576 and 617-646) -/

/-- Embedding of python `range(0, stop, step)` for a positive step. -/
def pythonRange (stop step : Nat) : List Nat :=
  (List.range ((stop + step - 1) / step)).map (· * step)

/-- The fixed `records_per_page = 30` (lines 548 and 618). -/
def records_per_page : Nat := 30

/-- Embedding of the pagination loop (lines 551-553 and 621-623): for each
`page_start` in `range(0, total_records, records_per_page)` the emitted chunk
is `[table_data[0]] + table_data[page_start+1 : page_end+1]`, the header row
followed by a slice of the data rows.  The header row is embedded as `none`
and a data row as `some`. -/
def paginate (rows : List α) : List (List (Option α)) :=
  (pythonRange rows.length records_per_page).map
    (fun s => none :: ((rows.drop s).take records_per_page).map some)

/-- Embedding of `create_all_transactions_section` (lines 511-579): the
grouped transaction rows sorted by `Transaction Date` (line 528), then
paginated 30 data rows per chunk. -/
def create_all_transactions_section (trans_aug_grouped : List GroupedOrder) :
    List (List (Option GroupedOrder)) :=
  paginate (trans_aug_grouped.mergeSort (fun a b => a.date ≤ b.date))

/-- Embedding of `create_all_tax_records_section` (lines 581-649): the tax
rows sorted by `Date` (line 597), then paginated 30 data rows per chunk. -/
def create_all_tax_records_section (tax_aug : List TaxRecord) :
    List (List (Option TaxRecord)) :=
  paginate (tax_aug.mergeSort (fun a b => a.date ≤ b.date))

/-! ## Final tax imputation (`src/FinalScript/new_membership_pdf.py`) -/

/-- An August membership transaction row after the two left merges of
`load_membership_data` (lines 62-86): `tax` is `some t` when the tax report
contributed a numeric `Tax` value for the order, and `none` when the left
merge produced no match (a `NaN` cell). -/
structure MemTransRow where
  orderId : String
  amount : ℚ
  tax : Option ℚ
  membershipType : String
deriving DecidableEq, Repr

/-- Embedding of `Tax_Percentage` (lines 89-92):
`(Tax / Amount * 100) if notnull(Tax) and Amount > 0 else 0`. -/
def taxPercentage (r : MemTransRow) : ℚ :=
  match r.tax with
  | some t => if 0 < r.amount then t / r.amount * 100 else 0
  | none => 0

/-- Embedding of `Series.mode().iloc[0]` of pandas: `mode()` returns the most
frequent values in increasing order and `.iloc[0]` takes the least of them;
`none` on an empty series. -/
def seriesModeHead (l : List ℚ) : Option ℚ :=
  (l.filter (fun x => decide (∀ y ∈ l, l.count y ≤ l.count x))).min?

/-- The series `august_2025.loc[august_2025[Tax].notnull(), Tax_Percentage]`
of line 95. -/
def tax_percentages_with_tax (rows : List MemTransRow) : List ℚ :=
  (rows.filter (fun r => r.tax.isSome)).map taxPercentage

/-- Embedding of `tax_rate` (lines 95-99): the mode of the tax percentages
over rows with a non-null `Tax`, divided by 100; `0.0888` as fallback when
that series is empty. -/
def tax_rate (rows : List MemTransRow) : ℚ :=
  match seriesModeHead (tax_percentages_with_tax rows) with
  | some m => m / 100
  | none => 888/10000

/-- Embedding of `Final_Tax` (lines 101-104):
`row[Tax] if notnull(row[Tax]) else row[Amount] * tax_rate`. -/
def final_tax (rows : List MemTransRow) (r : MemTransRow) : ℚ :=
  match r.tax with
  | some t => t
  | none => r.amount * tax_rate rows


section KernelEval

attribute [local semireducible] Rat.add Rat.sub Rat.mul Rat.inv Rat.ofScientific
attribute [local semireducible] List.mergeSort List.merge

/-! ## Helper lemmas -/

theorem length_filter_add_length_filter_not (p : α → Bool) (l : List α) :
    (l.filter p).length + (l.filter (fun a => !(p a))).length = l.length := by
  induction l with
  | nil => rfl
  | cons a l ih => cases h : p a <;> simp [List.filter_cons, h] <;> omega

theorem length_flatMap_eq_sum (f : α → List β) (l : List α) :
    (l.flatMap f).length = (l.map (fun a => (f a).length)).sum := by
  induction l with
  | nil => rfl
  | cons a l ih => simp [List.flatMap_cons, ih]

theorem sum_map_eq_length_of_forall_one {l : List α} {h : α → Nat}
    (H : ∀ a ∈ l, h a = 1) : (l.map h).sum = l.length := by
  induction l with
  | nil => rfl
  | cons a l ih =>
    simp [H a (List.mem_cons_self a l),
      ih (fun x hx => H x (List.mem_cons_of_mem a hx))]
    omega

theorem length_filter_key_le_one {T : List TaxRecord} {k : String}
    (h : (T.map (·.orderId)).Nodup) :
    (T.filter (fun t => t.orderId == k)).length ≤ 1 := by
  induction T with
  | nil => simp
  | cons t T ih =>
    rw [List.map_cons, List.nodup_cons] at h
    cases ht : (t.orderId == k) with
    | false =>
      rw [List.filter_cons_of_neg (by simp [ht])]
      exact ih h.2
    | true =>
      rw [List.filter_cons_of_pos (by simp [ht])]
      have : T.filter (fun t => t.orderId == k) = [] := by
        rw [List.filter_eq_nil_iff]
        intro a ha hak
        apply h.1
        rw [List.mem_map]
        refine ⟨a, ha, ?_⟩
        rw [beq_iff_eq] at ht hak
        rw [hak, ht]
      simp [this]

theorem common_tax_filter_eq {G : List GroupedOrder} {T : List TaxRecord}
    {g : GroupedOrder} (hg : g ∈ G) :
    (common_tax_orders G T).filter (fun t => t.orderId == g.orderId)
      = T.filter (fun t => t.orderId == g.orderId) := by
  unfold common_tax_orders
  rw [List.filter_filter]
  apply List.filter_congr
  intro t ht
  cases h : (t.orderId == g.orderId) with
  | false => simp [h]
  | true =>
    simp only [h, Bool.true_and, Bool.and_true]
    refine List.any_eq_true.mpr ⟨g, hg, ?_⟩
    rw [beq_iff_eq] at h ⊢
    exact h.symm

/-! ## Claims -/

/-- C1 (amended): provided no two rows of `T` share an order id, the
reconciliation partitions `G`: the number of matched pairs plus the number of
rows missing in tax equals the number of grouped orders. -/
theorem reconciliation_partitions_grouped_orders
    (G : List GroupedOrder) (T : List TaxRecord)
    (hT : (T.map (·.orderId)).Nodup) :
    (merged_comparison G T).length + (find_missing_records G T).length
      = G.length := by
  have hmerged : (merged_comparison G T).length = (common_orders G T).length := by
    unfold merged_comparison
    rw [length_flatMap_eq_sum]
    apply sum_map_eq_length_of_forall_one
    intro g hgc
    have hgG : g ∈ G := (List.mem_filter.mp hgc).1
    have hany : T.any (fun t => t.orderId == g.orderId) = true :=
      (List.mem_filter.mp hgc).2
    rw [List.length_map, common_tax_filter_eq hgG]
    have hle := length_filter_key_le_one (k := g.orderId) hT
    have hne : T.filter (fun t => t.orderId == g.orderId) ≠ [] := by
      obtain ⟨t, htT, htg⟩ := List.any_eq_true.mp hany
      intro hnil
      rw [List.filter_eq_nil_iff] at hnil
      exact hnil t htT htg
    have hpos : 0 < (T.filter (fun t => t.orderId == g.orderId)).length :=
      List.length_pos.mpr hne
    omega
  rw [hmerged]
  unfold common_orders find_missing_records
  exact length_filter_add_length_filter_not _ G

/-- Witness for C1 at a concrete input. -/
theorem reconciliation_partitions_grouped_orders_witness :
    (merged_comparison
        [⟨"A", 10, 0, "L", "card", "gw"⟩, ⟨"B", 5, 0, "L", "card", "gw"⟩]
        [⟨"A", 0, 10, 0, 0⟩]).length
      + (find_missing_records
        [⟨"A", 10, 0, "L", "card", "gw"⟩, ⟨"B", 5, 0, "L", "card", "gw"⟩]
        [⟨"A", 0, 10, 0, 0⟩]).length
      = ([⟨"A", 10, 0, "L", "card", "gw"⟩,
          ⟨"B", 5, 0, "L", "card", "gw"⟩] : List GroupedOrder).length :=
  reconciliation_partitions_grouped_orders _ _ (by decide)

/-- Counterexample to C1 as stated: with two tax rows sharing order id `A`,
the single grouped order `A` is matched twice, so
`matched.length + missing.length = 2 differs from the single grouped order`. -/
theorem reconciliation_partition_fails_on_duplicate_tax_ids :
    (merged_comparison [⟨"A", 10, 0, "L", "card", "gw"⟩]
        [⟨"A", 0, 10, 0, 0⟩, ⟨"A", 0, 10, 0, 0⟩]).length
      + (find_missing_records [⟨"A", 10, 0, "L", "card", "gw"⟩]
        [⟨"A", 0, 10, 0, 0⟩, ⟨"A", 0, 10, 0, 0⟩]).length
      ≠ ([⟨"A", 10, 0, "L", "card", "gw"⟩] : List GroupedOrder).length := by
  decide

/-- C2: a grouped order is in `missing_in_tax` exactly when its order id does
not occur among the order ids of the tax report; with an empty tax report all
of `G` is missing and the matched set is empty. -/
theorem missing_iff_order_id_absent (G : List GroupedOrder) (T : List TaxRecord) :
    (∀ g, g ∈ find_missing_records G T
        ↔ g ∈ G ∧ ∀ t ∈ T, t.orderId ≠ g.orderId)
      ∧ find_missing_records G [] = G ∧ merged_comparison G [] = [] := by
  refine ⟨fun g => ?_, ?_, ?_⟩
  · unfold find_missing_records
    simp [List.mem_filter]
  · unfold find_missing_records
    simp
  · unfold merged_comparison common_orders
    simp

/-- Witness for C2 at a concrete input. -/
theorem missing_iff_order_id_absent_witness :
    (⟨"B", 5, 0, "L", "card", "gw"⟩ : GroupedOrder) ∈
      find_missing_records
        [⟨"A", 10, 0, "L", "card", "gw"⟩, ⟨"B", 5, 0, "L", "card", "gw"⟩]
        [⟨"A", 0, 10, 0, 0⟩] :=
  ((missing_iff_order_id_absent _ _).1 _).mpr (by decide)

theorem filter_flatMap_eq (p : α → Bool) (f : α → List β) (l : List α) :
    (l.filter p).flatMap f
      = l.flatMap (fun a => if p a then f a else []) := by
  induction l with
  | nil => rfl
  | cons a l ih =>
    cases h : p a <;>
      simp [List.filter_cons, h, List.flatMap_cons, ih]

theorem flatMap_congr_of_mem {f₁ f₂ : α → List β} {l : List α}
    (H : ∀ a ∈ l, f₁ a = f₂ a) : l.flatMap f₁ = l.flatMap f₂ := by
  induction l with
  | nil => rfl
  | cons a l ih =>
    rw [List.flatMap_cons, List.flatMap_cons, H a (List.mem_cons_self a l),
      ih (fun x hx => H x (List.mem_cons_of_mem a hx))]

/-- C3: the matched set equals the inner join of the full `G` and `T` on the
order id, and a tax record whose order id occurs nowhere in `G` appears in no
output of the reconciliation. -/
theorem matched_eq_inner_join_and_tax_only_dropped
    (G : List GroupedOrder) (T : List TaxRecord) :
    merged_comparison G T = spec_inner_join G T
      ∧ ∀ t ∈ T, (∀ g ∈ G, g.orderId ≠ t.orderId) →
          (∀ p ∈ merged_comparison G T, p.2.orderId ≠ t.orderId)
          ∧ (∀ p ∈ significant_mismatches G T, p.2.orderId ≠ t.orderId)
          ∧ (∀ g ∈ find_missing_records G T, g.orderId ≠ t.orderId)
      := by
  have hjoin : merged_comparison G T = spec_inner_join G T := by
    unfold merged_comparison spec_inner_join common_orders
    rw [filter_flatMap_eq]
    apply flatMap_congr_of_mem
    intro g hg
    cases h : T.any (fun t => t.orderId == g.orderId) with
    | true =>
      rw [if_pos rfl, common_tax_filter_eq hg]
    | false =>
      rw [if_neg (by simp)]
      have : T.filter (fun t => t.orderId == g.orderId) = [] := by
        rw [List.filter_eq_nil_iff]
        intro t ht htg
        rw [List.any_eq_false] at h
        exact h t ht htg
      rw [this, List.map_nil]
  refine ⟨hjoin, fun t htT hno => ⟨?_, ?_, ?_⟩⟩
  · intro p hp
    rw [hjoin] at hp
    unfold spec_inner_join at hp
    rw [List.mem_flatMap] at hp
    obtain ⟨g, hgG, hp⟩ := hp
    rw [List.mem_map] at hp
    obtain ⟨u, hu, rfl⟩ := hp
    have hgu : u.orderId = g.orderId := by
      have := (List.mem_filter.mp hu).2
      rwa [beq_iff_eq] at this
    simpa [hgu] using hno g hgG
  · intro p hp
    have hpm : p ∈ merged_comparison G T := (List.mem_filter.mp hp).1
    rw [hjoin] at hpm
    unfold spec_inner_join at hpm
    rw [List.mem_flatMap] at hpm
    obtain ⟨g, hgG, hpm⟩ := hpm
    rw [List.mem_map] at hpm
    obtain ⟨u, hu, rfl⟩ := hpm
    have hgu : u.orderId = g.orderId := by
      have := (List.mem_filter.mp hu).2
      rwa [beq_iff_eq] at this
    simpa [hgu] using hno g hgG
  · intro g hg
    exact hno g (List.mem_filter.mp hg).1

/-- Witness for C3 at a concrete input: the tax-only record `B` is reported
nowhere. -/
theorem matched_eq_inner_join_witness :
    ((⟨"A", 10, 0, "L", "card", "gw"⟩, ⟨"A", 0, 10, 0, 0⟩) :
        GroupedOrder × TaxRecord).2.orderId
      ≠ (⟨"B", 0, 3, 0, 0⟩ : TaxRecord).orderId :=
  (((matched_eq_inner_join_and_tax_only_dropped
      [⟨"A", 10, 0, "L", "card", "gw"⟩]
      [⟨"A", 0, 10, 0, 0⟩, ⟨"B", 0, 3, 0, 0⟩]).2
    ⟨"B", 0, 3, 0, 0⟩ (by decide) (by decide)).1
    (⟨"A", 10, 0, "L", "card", "gw"⟩, ⟨"A", 0, 10, 0, 0⟩) (by decide))

/-- C4: a matched pair is classified a significant mismatch exactly when the
absolute amount difference strictly exceeds `0.01`; in particular a pair
whose difference is exactly `0.01` (trans `10.00` vs tax `9.99`) is not
significant. -/
theorem significant_iff_abs_diff_gt_eps
    (G : List GroupedOrder) (T : List TaxRecord) :
    (∀ p, p ∈ significant_mismatches G T
        ↔ p ∈ merged_comparison G T
          ∧ (1 : ℚ)/100 < |p.1.amount - p.2.totalSum|)
      ∧ significant_mismatches [⟨"A", 10, 0, "L", "card", "gw"⟩]
          [⟨"A", 0, 999/100, 0, 0⟩] = [] := by
  constructor
  · intro p
    unfold significant_mismatches abs_diff amount_diff
    simp [List.mem_filter]
  · decide

theorem groupFor_eq_some {rows : List TransRecord} {k : String}
    (hk : k ∈ rows.map (·.orderId)) :
    ∃ g, groupFor rows k = some g ∧ g.orderId = k := by
  unfold groupFor
  cases h : rows.filter (fun r => r.orderId == k) with
  | nil =>
    exfalso
    rw [List.filter_eq_nil_iff] at h
    obtain ⟨r, hr, hrk⟩ := List.mem_map.mp hk
    exact h r hr (by simp [hrk])
  | cons r rs => exact ⟨_, rfl, rfl⟩

theorem map_orderId_filterMap_groupFor (rows : List TransRecord) :
    ∀ ks : List String, (∀ k ∈ ks, k ∈ rows.map (·.orderId)) →
      ((ks.filterMap (groupFor rows)).map (·.orderId)) = ks := by
  intro ks
  induction ks with
  | nil => simp
  | cons k ks ih =>
    intro h
    obtain ⟨g, hg, hgk⟩ := groupFor_eq_some (h k (List.mem_cons_self k ks))
    rw [List.filterMap_cons, hg, List.map_cons, hgk,
      ih (fun x hx => h x (List.mem_cons_of_mem k hx))]

theorem find?_eq_head?_filter (p : α → Bool) (l : List α) :
    l.find? p = (l.filter p).head? := by
  induction l with
  | nil => rfl
  | cons a l ih =>
    cases h : p a with
    | false =>
      rw [List.find?_cons_of_neg _ (by simp [h]),
        List.filter_cons_of_neg (by simp [h]), ih]
    | true =>
      rw [List.find?_cons_of_pos _ h, List.filter_cons_of_pos h]
      rfl

/-- C5: grouping produces exactly one row per distinct order id; the amount
of a group is the sum of the amounts of the input rows with that order id,
and its date, location, payment type and payment gateway are those of the
first input row with that order id in the original row order. -/
theorem grouping_one_row_per_id_sum_preserving (rows : List TransRecord) :
    ((group_transaction_data rows).map (·.orderId)).Nodup
      ∧ (∀ k, k ∈ (group_transaction_data rows).map (·.orderId)
          ↔ k ∈ rows.map (·.orderId))
      ∧ ∀ g ∈ group_transaction_data rows,
          g.amount
              = ((rows.filter (fun r => r.orderId == g.orderId)).map
                  (·.amount)).sum
            ∧ ∃ r, rows.find? (fun r => r.orderId == g.orderId) = some r
                ∧ g.date = r.date ∧ g.location = r.location
                ∧ g.paymentType = r.paymentType
                ∧ g.paymentGateway = r.paymentGateway := by
  have hmap : ((group_transaction_data rows).map (·.orderId))
      = (rows.map (·.orderId)).dedup := by
    unfold group_transaction_data
    exact map_orderId_filterMap_groupFor rows _
      (fun k hk => List.mem_dedup.mp hk)
  refine ⟨?_, fun k => ?_, fun g hg => ?_⟩
  · rw [hmap]
    exact List.nodup_dedup _
  · rw [hmap, List.mem_dedup]
  · unfold group_transaction_data at hg
    rw [List.mem_filterMap] at hg
    obtain ⟨k, hk, hgk⟩ := hg
    unfold groupFor at hgk
    cases h : rows.filter (fun r => r.orderId == k) with
    | nil =>
      rw [h] at hgk
      exact absurd hgk (by simp)
    | cons r rs =>
      rw [h] at hgk
      injection hgk with hgk
      subst hgk
      constructor
      · show ((r :: rs).map (·.amount)).sum
          = ((rows.filter (fun x => x.orderId == k)).map (·.amount)).sum
        rw [h]
      · refine ⟨r, ?_, rfl, rfl, rfl, rfl⟩
        show rows.find? (fun x => x.orderId == k) = some r
        rw [find?_eq_head?_filter, h]
        rfl

/-- Witness for C5 at a concrete input: the two rows with order id `A`
(amounts 3 and 4, the first one carrying date 2 and location `L2`) collapse
into one group of amount 7. -/
theorem grouping_one_row_per_id_witness :
    (⟨"A", 7, 2, "L2", "c2", "g2"⟩ : GroupedOrder).amount
      = ((([⟨"B", 5, 1, "L1", "c1", "g1"⟩, ⟨"A", 3, 2, "L2", "c2", "g2"⟩,
            ⟨"A", 4, 3, "L3", "c3", "g3"⟩] : List TransRecord).filter
          (fun r => r.orderId == (⟨"A", 7, 2, "L2", "c2", "g2"⟩ :
            GroupedOrder).orderId)).map (·.amount)).sum :=
  ((grouping_one_row_per_id_sum_preserving
      [⟨"B", 5, 1, "L1", "c1", "g1"⟩, ⟨"A", 3, 2, "L2", "c2", "g2"⟩,
       ⟨"A", 4, 3, "L3", "c3", "g3"⟩]).2.2
    ⟨"A", 7, 2, "L2", "c2", "g2"⟩ (by decide)).1

/-- C6 (amended): in the scripts that parse dates with `errors=coerce`
(such as `membership.py`), a row whose date cell fails to parse is coerced to
the null marker and excluded from the August filter; but in the scripts that
use the default `pd.to_datetime` error mode (such as
`POSComparisionReport.py`, line 51), a surviving row with an unparseable
date cell makes the preparation raise instead. -/
theorem coerce_filter_excludes_null_but_default_mode_raises
    (data : List MemRow) (woodTrans : List RawTransRow) :
    (∀ r ∈ august_2025_by_updatedat data,
        ∃ d, r.updatedat = some d ∧ d.year = 2025 ∧ d.month = 8)
      ∧ (∀ r ∈ august_2025_by_purchasedon data,
          ∃ d, r.purchasedon = some d ∧ d.year = 2025 ∧ d.month = 8)
      ∧ ((∃ r ∈ (woodTrans.filter (fun r => r.source == "pos")).filter
            (fun r => module_of r == "pos"), r.transactionDate = none) →
          prepare_transaction_data woodTrans = Except.error ()) := by
  refine ⟨fun r hr => ?_, fun r hr => ?_, fun ⟨r, hr, hrd⟩ => ?_⟩
  · have hp := (List.mem_filter.mp hr).2
    cases hu : r.updatedat with
    | none => rw [hu] at hp; exact absurd hp (by simp [isAugust2025])
    | some d =>
      rw [hu] at hp
      unfold isAugust2025 at hp
      simp at hp
      exact ⟨d, rfl, hp.1, hp.2⟩
  · have hp := (List.mem_filter.mp hr).2
    cases hu : r.purchasedon with
    | none => rw [hu] at hp; exact absurd hp (by simp [isAugust2025])
    | some d =>
      rw [hu] at hp
      unfold isAugust2025 at hp
      simp at hp
      exact ⟨d, rfl, hp.1, hp.2⟩
  · unfold prepare_transaction_data
    rw [if_neg]
    intro hall
    rw [List.all_eq_true] at hall
    have := hall r hr
    rw [hrd] at this
    exact absurd this (by simp)

/-- Witness for C6 (amended) at concrete inputs: a row with an unparseable
`updatedat` never survives the coerce filter, and one unparseable POS row
makes `prepare_transaction_data` fail. -/
theorem coerce_filter_excludes_null_witness :
    (∃ d, (⟨some ⟨2025, 8⟩, none, "basic", 10, 1⟩ : MemRow).updatedat = some d
        ∧ d.year = 2025 ∧ d.month = 8)
      ∧ prepare_transaction_data [⟨"X1", "pos", none, 10, "L", "card", "gw"⟩]
          = Except.error () :=
  ⟨(coerce_filter_excludes_null_but_default_mode_raises
      [⟨some ⟨2025, 8⟩, none, "basic", 10, 1⟩] []).1
      ⟨some ⟨2025, 8⟩, none, "basic", 10, 1⟩ (by decide),
   (coerce_filter_excludes_null_but_default_mode_raises []
      [⟨"X1", "pos", none, 10, "L", "card", "gw"⟩]).2.2
      ⟨⟨"X1", "pos", none, 10, "L", "card", "gw"⟩, by decide, rfl⟩⟩

/-- Counterexample to C6 as stated: in `POSComparisionReport.py` the
`Transaction Date` column is parsed with the default error mode (line 51), so
a single POS row whose date cell is unparseable makes the Filter/Normalize
step raise rather than coerce-and-exclude. -/
theorem pos_script_date_parse_raises :
    prepare_transaction_data [⟨"X1", "pos", none, 10, "L", "card", "gw"⟩]
      = Except.error () := by
  rfl

/-- C7: when the primary `updatedat` filter selects at least one row the
fallback field is never consulted, when it selects zero rows the result is
the `purchasedon` filter of the same month, and the result is always one of
the two (the fallback is applied at most once). -/
theorem fallback_applied_only_on_empty_primary (data : List MemRow) :
    (august_2025_by_updatedat data ≠ [] →
        august_2025 data = august_2025_by_updatedat data)
      ∧ (august_2025_by_updatedat data = [] →
          august_2025 data = august_2025_by_purchasedon data)
      ∧ (august_2025 data = august_2025_by_updatedat data
          ∨ august_2025 data = august_2025_by_purchasedon data) := by
  unfold august_2025
  by_cases h : (august_2025_by_updatedat data).length = 0
  · rw [if_pos h]
    have hnil : august_2025_by_updatedat data = [] :=
      List.length_eq_zero.mp h
    exact ⟨fun hne => absurd hnil hne, fun _ => rfl, Or.inr rfl⟩
  · rw [if_neg h]
    refine ⟨fun _ => rfl, fun hnil => ?_, Or.inl rfl⟩
    rw [hnil] at h
    exact absurd rfl h

/-- Witness for C7 at concrete inputs: a dataset whose primary filter is
nonempty keeps the primary result, one whose primary filter is empty falls
back to `purchasedon`. -/
theorem fallback_applied_only_on_empty_primary_witness :
    august_2025 [⟨some ⟨2025, 8⟩, none, "basic", 10, 1⟩]
        = august_2025_by_updatedat [⟨some ⟨2025, 8⟩, none, "basic", 10, 1⟩]
      ∧ august_2025 [⟨some ⟨2025, 7⟩, some ⟨2025, 8⟩, "basic", 10, 1⟩]
        = august_2025_by_purchasedon
            [⟨some ⟨2025, 7⟩, some ⟨2025, 8⟩, "basic", 10, 1⟩] :=
  ⟨(fallback_applied_only_on_empty_primary _).1 (by decide),
   (fallback_applied_only_on_empty_primary _).2.1 (by decide)⟩

theorem chunks_flatten_aux (k : Nat) (hk : 0 < k) :
    ∀ (n : Nat) (rows : List α), rows.length ≤ n →
      ((pythonRange rows.length k).map
        (fun s => (rows.drop s).take k)).flatten = rows := by
  intro n
  induction n with
  | zero =>
    intro rows h
    obtain rfl : rows = [] := List.length_eq_zero.mp (Nat.le_zero.mp h)
    unfold pythonRange
    rw [List.length_nil, Nat.div_eq_of_lt (by omega)]
    rfl
  | succ n ih =>
    intro rows h
    cases rows with
    | nil =>
      unfold pythonRange
      rw [List.length_nil, Nat.div_eq_of_lt (by omega)]
      rfl
    | cons a l =>
      have hceil : ((a :: l).length + k - 1) / k = l.length / k + 1 := by
        rw [List.length_cons,
          show l.length + 1 + k - 1 = l.length + k by omega]
        exact Nat.add_div_right _ hk
      have hceil2 : (((a :: l).drop k).length + k - 1) / k = l.length / k := by
        rw [List.length_drop, List.length_cons]
        by_cases hk2 : k ≤ l.length + 1
        · rw [show l.length + 1 - k + k - 1 = l.length by omega]
        · rw [show l.length + 1 - k = 0 by omega]
          rw [Nat.div_eq_of_lt (by omega), Nat.div_eq_of_lt (by omega)]
      have hrec := ih ((a :: l).drop k)
        (by rw [List.length_drop, List.length_cons]
            rw [List.length_cons] at h
            omega)
      unfold pythonRange at hrec ⊢
      rw [hceil2] at hrec
      rw [hceil, List.range_succ_eq_map]
      simp only [List.map_map, List.map_cons, List.flatten_cons,
        Function.comp_def] at hrec ⊢
      rw [Nat.zero_mul]
      have hmapeq : (List.range (l.length / k)).map
            (fun i => ((a :: l).drop (i.succ * k)).take k)
          = (List.range (l.length / k)).map
            (fun i => (((a :: l).drop k).drop (i * k)).take k) := by
        apply List.map_congr_left
        intro i _
        rw [List.drop_drop, Nat.succ_mul, Nat.add_comm (i * k) k]
      rw [hmapeq, hrec]
      show ((a :: l).take k) ++ (a :: l).drop k = a :: l
      exact List.take_append_drop k (a :: l)

theorem paginate_length (rows : List α) :
    (paginate rows).length = (rows.length + 29) / 30 := by
  unfold paginate pythonRange records_per_page
  rw [List.length_map, List.length_map, List.length_range,
    show rows.length + 30 - 1 = rows.length + 29 by omega]

theorem paginate_pages (rows : List α) :
    ∀ page ∈ paginate rows,
      page = none :: page.tail ∧ page.tail.length ≤ 30 := by
  intro page hp
  unfold paginate at hp
  obtain ⟨s, hs, rfl⟩ := List.mem_map.mp hp
  refine ⟨rfl, ?_⟩
  show (((rows.drop s).take records_per_page).map some).length ≤ 30
  rw [List.length_map]
  calc ((rows.drop s).take records_per_page).length
      ≤ records_per_page := List.length_take_le _ _
    _ = 30 := rfl

theorem paginate_flatten (rows : List α) :
    ((paginate rows).map (·.tail)).flatten = rows.map some := by
  unfold paginate
  rw [List.map_map]
  have hfun : ((fun p : List (Option α) => p.tail)
        ∘ fun s => none :: ((rows.drop s).take records_per_page).map some)
      = fun s => (((rows.map some).drop s).take records_per_page) := by
    funext s
    show ((rows.drop s).take records_per_page).map some
      = ((rows.map some).drop s).take records_per_page
    rw [List.map_take, List.map_drop]
  rw [hfun]
  have hlen : rows.length = (rows.map some).length := (List.length_map _ _).symm
  rw [hlen]
  exact chunks_flatten_aux records_per_page (by decide)
    (rows.map some).length (rows.map some) (Nat.le_refl _)

/-- C8: both detailed listings are paginated at 30 data rows per page: there
are exactly `ceil(n / 30)` chunks, every chunk is the header row followed by
at most 30 data rows, and the data rows of the chunks concatenate back to the
date-sorted records with nothing duplicated or omitted (the sorted sequence
is a permutation of the input). -/
theorem pagination_thirty_rows_per_page
    (trans : List GroupedOrder) (tax : List TaxRecord) :
    ((create_all_transactions_section trans).length = (trans.length + 29) / 30
      ∧ (∀ page ∈ create_all_transactions_section trans,
          page = none :: page.tail ∧ page.tail.length ≤ 30)
      ∧ ((create_all_transactions_section trans).map (·.tail)).flatten
          = (trans.mergeSort (fun a b => a.date ≤ b.date)).map some
      ∧ (trans.mergeSort (fun a b => a.date ≤ b.date)).Perm trans)
    ∧ ((create_all_tax_records_section tax).length = (tax.length + 29) / 30
      ∧ (∀ page ∈ create_all_tax_records_section tax,
          page = none :: page.tail ∧ page.tail.length ≤ 30)
      ∧ ((create_all_tax_records_section tax).map (·.tail)).flatten
          = (tax.mergeSort (fun a b => a.date ≤ b.date)).map some
      ∧ (tax.mergeSort (fun a b => a.date ≤ b.date)).Perm tax) := by
  constructor
  · refine ⟨?_, paginate_pages _, paginate_flatten _, List.mergeSort_perm _ _⟩
    unfold create_all_transactions_section
    rw [paginate_length, List.length_mergeSort]
  · refine ⟨?_, paginate_pages _, paginate_flatten _, List.mergeSort_perm _ _⟩
    unfold create_all_tax_records_section
    rw [paginate_length, List.length_mergeSort]

/-- Witness for C8 at a concrete input: the single-record listing forms one
page holding the header and that record. -/
theorem pagination_thirty_rows_per_page_witness :
    ([none, some ⟨"A", 10, 0, "L", "card", "gw"⟩] :
        List (Option GroupedOrder))
      = none :: ([none, some ⟨"A", 10, 0, "L", "card", "gw"⟩] :
        List (Option GroupedOrder)).tail
    ∧ ([none, some ⟨"A", 10, 0, "L", "card", "gw"⟩] :
        List (Option GroupedOrder)).tail.length ≤ 30 :=
  (pagination_thirty_rows_per_page [⟨"A", 10, 0, "L", "card", "gw"⟩] []).1.2.1
    [none, some ⟨"A", 10, 0, "L", "card", "gw"⟩] (by decide)

theorem min_eq_or_rat : ∀ a b : ℚ, min a b = a ∨ min a b = b := by
  intro a b
  rw [min_def]
  by_cases h : a ≤ b
  · rw [if_pos h]
    exact Or.inl rfl
  · rw [if_neg h]
    exact Or.inr rfl

theorem seriesModeHead_spec {l : List ℚ} (hl : l ≠ []) :
    ∃ m, seriesModeHead l = some m ∧ m ∈ l
      ∧ ∀ y ∈ l, l.count y ≤ l.count m := by
  have hargmax : ∃ m₀, l.argmax (fun x => l.count x) = some m₀ := by
    cases h : l.argmax (fun x => l.count x) with
    | none => exact absurd (List.argmax_eq_none.mp h) hl
    | some m => exact ⟨m, rfl⟩
  obtain ⟨m₀, hm₀⟩ := hargmax
  have hmem : m₀ ∈ l := List.argmax_mem hm₀
  have hmax : ∀ y ∈ l, l.count y ≤ l.count m₀ :=
    fun y hy => List.le_of_mem_argmax hy hm₀
  have hfil : m₀ ∈ l.filter (fun x => decide (∀ y ∈ l, l.count y ≤ l.count x)) :=
    List.mem_filter.mpr ⟨hmem, by simpa using hmax⟩
  have hfilne : l.filter (fun x => decide (∀ y ∈ l, l.count y ≤ l.count x)) ≠ [] :=
    fun hnil => by rw [hnil] at hfil; exact absurd hfil (by simp)
  cases hmin : (l.filter (fun x => decide (∀ y ∈ l, l.count y ≤ l.count x))).min? with
  | none => exact absurd (List.min?_eq_none_iff.mp hmin) hfilne
  | some m =>
    have hmF : m ∈ l.filter (fun x => decide (∀ y ∈ l, l.count y ≤ l.count x)) :=
      List.min?_mem min_eq_or_rat hmin
    have hmF2 := List.mem_filter.mp hmF
    refine ⟨m, hmin, hmF2.1, ?_⟩
    simpa using hmF2.2

/-- C9: `Final_Tax` equals the reported `Tax` when it is non-null and
otherwise `Amount` times the imputed rate; the rate is the pandas mode (a
most frequent value) of `Tax_Percentage` over the rows with a non-null `Tax`,
divided by 100, and `0.0888` when no row has a non-null `Tax`. -/
theorem final_tax_uses_tax_or_imputed_rate
    (rows : List MemTransRow) (r : MemTransRow) :
    (∀ t, r.tax = some t → final_tax rows r = t)
      ∧ (r.tax = none → final_tax rows r = r.amount * tax_rate rows)
      ∧ ((∃ s ∈ rows, s.tax ≠ none) →
          ∃ m, seriesModeHead (tax_percentages_with_tax rows) = some m
            ∧ m ∈ tax_percentages_with_tax rows
            ∧ (∀ y ∈ tax_percentages_with_tax rows,
                (tax_percentages_with_tax rows).count y
                  ≤ (tax_percentages_with_tax rows).count m)
            ∧ tax_rate rows = m / 100)
      ∧ ((∀ s ∈ rows, s.tax = none) → tax_rate rows = 888/10000) := by
  refine ⟨fun t ht => ?_, fun ht => ?_, fun ⟨s, hs, hst⟩ => ?_, fun hall => ?_⟩
  · unfold final_tax
    rw [ht]
  · unfold final_tax
    rw [ht]
  · have hne : tax_percentages_with_tax rows ≠ [] := by
      unfold tax_percentages_with_tax
      intro hnil
      rw [List.map_eq_nil_iff, List.filter_eq_nil_iff] at hnil
      apply hnil s hs
      cases h : s.tax with
      | none => exact absurd h hst
      | some v => simp
    obtain ⟨m, hm, hmem, hmax⟩ := seriesModeHead_spec hne
    refine ⟨m, hm, hmem, hmax, ?_⟩
    unfold tax_rate
    rw [hm]
  · have hnil : tax_percentages_with_tax rows = [] := by
      unfold tax_percentages_with_tax
      rw [List.map_eq_nil_iff, List.filter_eq_nil_iff]
      intro s hs
      rw [hall s hs]
      simp
    unfold tax_rate seriesModeHead
    rw [hnil]
    rfl

/-- Witness for C9 at a concrete input: two taxed rows with percentage 8
give the imputed rate `8 / 100`, a row with a null tax gets
`Amount * rate`, a taxed row keeps its own tax, and with no taxed rows the
rate falls back to `0.0888`. -/
theorem final_tax_uses_tax_or_imputed_rate_witness :
    final_tax [⟨"M1", 100, some 8, "t"⟩, ⟨"M2", 200, some 16, "t"⟩,
        ⟨"M3", 50, none, "t"⟩] ⟨"M1", 100, some 8, "t"⟩ = 8
      ∧ final_tax [⟨"M1", 100, some 8, "t"⟩, ⟨"M2", 200, some 16, "t"⟩,
          ⟨"M3", 50, none, "t"⟩] ⟨"M3", 50, none, "t"⟩
        = 50 * tax_rate [⟨"M1", 100, some 8, "t"⟩, ⟨"M2", 200, some 16, "t"⟩,
          ⟨"M3", 50, none, "t"⟩]
      ∧ (∃ m, seriesModeHead (tax_percentages_with_tax
            [⟨"M1", 100, some 8, "t"⟩, ⟨"M2", 200, some 16, "t"⟩,
             ⟨"M3", 50, none, "t"⟩]) = some m
          ∧ m ∈ tax_percentages_with_tax
            [⟨"M1", 100, some 8, "t"⟩, ⟨"M2", 200, some 16, "t"⟩,
             ⟨"M3", 50, none, "t"⟩]
          ∧ (∀ y ∈ tax_percentages_with_tax
              [⟨"M1", 100, some 8, "t"⟩, ⟨"M2", 200, some 16, "t"⟩,
               ⟨"M3", 50, none, "t"⟩],
              (tax_percentages_with_tax
                [⟨"M1", 100, some 8, "t"⟩, ⟨"M2", 200, some 16, "t"⟩,
                 ⟨"M3", 50, none, "t"⟩]).count y
                ≤ (tax_percentages_with_tax
                  [⟨"M1", 100, some 8, "t"⟩, ⟨"M2", 200, some 16, "t"⟩,
                   ⟨"M3", 50, none, "t"⟩]).count m)
          ∧ tax_rate [⟨"M1", 100, some 8, "t"⟩, ⟨"M2", 200, some 16, "t"⟩,
              ⟨"M3", 50, none, "t"⟩] = m / 100)
      ∧ tax_rate [⟨"M4", 50, none, "t"⟩] = 888/10000 :=
  ⟨(final_tax_uses_tax_or_imputed_rate _ ⟨"M1", 100, some 8, "t"⟩).1 8 rfl,
   (final_tax_uses_tax_or_imputed_rate _ ⟨"M3", 50, none, "t"⟩).2.1 rfl,
   (final_tax_uses_tax_or_imputed_rate _ ⟨"M1", 100, some 8, "t"⟩).2.2.1
     ⟨⟨"M1", 100, some 8, "t"⟩, by decide, by decide⟩,
   (final_tax_uses_tax_or_imputed_rate [⟨"M4", 50, none, "t"⟩]
     ⟨"M4", 50, none, "t"⟩).2.2.2 (by decide)⟩

/-- C10: the tax-percentage computations are division-guarded:
`Tax_Percentage` is 0 whenever `Tax` is null or `Amount` is not strictly
positive, the effective tax rate is 0 whenever the grand total is not
strictly positive, and whenever the division is actually performed the
denominator is strictly positive, hence nonzero. -/
theorem tax_percentage_division_guarded
    (r : MemTransRow) (grand_tax grand_total : ℚ) :
    (r.tax = none → taxPercentage r = 0)
      ∧ (¬ 0 < r.amount → taxPercentage r = 0)
      ∧ (∀ t, r.tax = some t → 0 < r.amount →
          taxPercentage r = t / r.amount * 100 ∧ r.amount ≠ 0)
      ∧ (¬ 0 < grand_total → effective_tax_rate grand_tax grand_total = 0)
      ∧ (0 < grand_total →
          effective_tax_rate grand_tax grand_total
              = grand_tax / grand_total * 100
            ∧ grand_total ≠ 0) := by
  refine ⟨fun ht => ?_, fun ha => ?_, fun t ht ha => ?_, fun hg => ?_,
    fun hg => ?_⟩
  · unfold taxPercentage
    rw [ht]
  · unfold taxPercentage
    cases ht : r.tax with
    | none => rfl
    | some t =>
      show (if 0 < r.amount then t / r.amount * 100 else 0) = 0
      rw [if_neg ha]
  · unfold taxPercentage
    rw [ht]
    refine ⟨?_, ne_of_gt ha⟩
    show (if 0 < r.amount then t / r.amount * 100 else 0) = t / r.amount * 100
    rw [if_pos ha]
  · unfold effective_tax_rate
    rw [if_neg hg]
  · unfold effective_tax_rate
    rw [if_pos hg]
    exact ⟨rfl, ne_of_gt hg⟩

/-- Witness for C10 at concrete inputs: a null tax and a zero amount give
percentage 0, a positive amount divides safely, a zero grand total gives
rate 0 and a positive one divides safely. -/
theorem tax_percentage_division_guarded_witness :
    taxPercentage ⟨"M1", 100, none, "t"⟩ = 0
      ∧ taxPercentage ⟨"M2", 0, some 5, "t"⟩ = 0
      ∧ (taxPercentage ⟨"M3", 50, some 5, "t"⟩ = 5 / 50 * 100
          ∧ ((⟨"M3", 50, some 5, "t"⟩ : MemTransRow).amount ≠ 0))
      ∧ effective_tax_rate 5 0 = 0
      ∧ (effective_tax_rate 5 100 = 5 / 100 * 100 ∧ (100 : ℚ) ≠ 0) :=
  ⟨(tax_percentage_division_guarded ⟨"M1", 100, none, "t"⟩ 0 0).1 rfl,
   (tax_percentage_division_guarded ⟨"M2", 0, some 5, "t"⟩ 0 0).2.1
     (by norm_num),
   (tax_percentage_division_guarded ⟨"M3", 50, some 5, "t"⟩ 0 0).2.2.1 5 rfl
     (by norm_num),
   (tax_percentage_division_guarded ⟨"M1", 100, none, "t"⟩ 5 0).2.2.2.1
     (by norm_num),
   (tax_percentage_division_guarded ⟨"M1", 100, none, "t"⟩ 5 100).2.2.2.2
     (by norm_num)⟩

end KernelEval

end DataAnalysis
